import Mathlib

/-!
# hackctl: the ephemeral privileged pod lifecycle of main.go

A shallow embedding of the single function of the program, func main of
src/main.go.  The cluster, the terminal and the signal source are the
environment: every answer they give to main is a field of Env, and the
run of main on an environment is the ordered list of the calls main issues
together with the way the process ends.

Go features made explicit here:
* defer: a stack of deferred actions, run last-in first-out when main
  returns or panics;
* panic and recover: log.Panic and log.Panicf start a panic, the deferred
  function registered first (lines 35 to 39) recovers it;
* the select of the readiness loop: the list of outcomes the runtime hands
  to the loop, one per iteration.
-/

namespace Hackctl

/-! ## Data model: the parts of the Kubernetes API objects main touches -/

/-- The constant execName of lines 28 to 30. -/
def execName : String := "hackctl"

/-- The corev1.ConditionStatus values. -/
inductive ConditionStatus where
  | ConditionTrue
  | ConditionFalse
  | ConditionUnknown
  deriving DecidableEq, Repr

/-- The corev1.PodConditionType values. -/
inductive PodConditionType where
  | ContainersReady
  | PodInitialized
  | PodReady
  | PodScheduled
  | DisruptionTarget
  deriving DecidableEq, Repr

/-- A corev1.PodCondition: the two fields line 197 and 198 read. -/
structure PodCondition where
  Typ : PodConditionType
  Status : ConditionStatus
  deriving DecidableEq, Repr

/-- A corev1.VolumeMount. -/
structure VolumeMount where
  MountPath : String
  Name : String
  deriving DecidableEq, Repr

/-- A corev1.SecurityContext; Privileged is a pointer to a bool. -/
structure SecurityContext where
  Privileged : Option Bool
  deriving DecidableEq, Repr

/-- A corev1.Container. -/
structure Container where
  Name : String
  Image : String
  VolumeMounts : List VolumeMount
  SecurityContext : Option SecurityContext
  Command : List String
  deriving DecidableEq, Repr

/-- A corev1.Volume; HostPath is the pointer VolumeSource.HostPath, holding
the Path of the corev1.HostPathVolumeSource when set. -/
structure Volume where
  Name : String
  HostPath : Option String
  deriving DecidableEq, Repr

/-- The corev1.TolerationOperator values. -/
inductive TolerationOperator where
  | TolerationOpExists
  | TolerationOpEqual
  deriving DecidableEq, Repr

/-- A corev1.Toleration; the empty string is the zero value of Key, Value
and Effect. -/
structure Toleration where
  Key : String
  Operator : TolerationOperator
  Value : String
  Effect : String
  deriving DecidableEq, Repr

/-- A corev1.PodSpec; the map NodeSelector is the list of its pairs. -/
structure PodSpec where
  NodeSelector : List (String × String)
  Containers : List Container
  Volumes : List Volume
  Tolerations : List Toleration
  deriving DecidableEq, Repr

/-- A metav1.ObjectMeta. -/
structure ObjectMeta where
  Name : String
  Namespace : String
  deriving DecidableEq, Repr

/-- A corev1.PodStatus. -/
structure PodStatus where
  Conditions : List PodCondition
  deriving DecidableEq, Repr

/-- A corev1.Pod. -/
structure Pod where
  Kind : String
  APIVersion : String
  ObjectMeta : ObjectMeta
  Spec : PodSpec
  Status : PodStatus
  deriving DecidableEq, Repr

/-- A corev1.Node: main reads its name only. -/
structure Node where
  Name : String
  deriving DecidableEq, Repr

/-- The values of the local variables of lines 55 to 63 once the flags are
parsed. -/
structure Vars where
  kubeContext : String
  nodeName : String
  namespace_ : String
  image : String
  kubeConfig : String
  masterURL : String
  help : Bool
  deriving DecidableEq, Repr

/-- Lines 65 to 74: the namespace is set to "default" and no flag is bound to
it; the six flags fill the other variables. -/
def parsedVars (context node image kubeconfig masterurl : String) (help : Bool) : Vars :=
  { kubeContext := context, nodeName := node, namespace_ := "default", image := image,
    kubeConfig := kubeconfig, masterURL := masterurl, help := help }

/-! ## Node target resolution, lines 113 to 126 -/

/-- Lines 113 to 123: the value of nodeName after the block.  The argument
nodes is the pointer returned by the node list call (none is nil).  The loop
of lines 117 to 122 only breaks and assigns nothing. -/
def resolveNodeName (nodes : Option (List Node)) (nodeName : String) : String :=
  match nodes with
  | none => nodeName
  | some items =>
    match items with
    | [] => nodeName
    | first :: _ => if nodeName = "" then first.Name else nodeName

/-- Lines 113 to 126: the target node, or the panic of line 125. -/
def nodeTarget (nodes : Option (List Node)) (nodeName : String) : Except String String :=
  if resolveNodeName nodes nodeName = "" then
    .error "cannot attach to a node if none is given or found"
  else
    .ok (resolveNodeName nodes nodeName)

/-! ## The pod descriptor, lines 130 to 173 -/

/-- The command of line 156, which keeps the container alive and idle. -/
def idleCommand : List String := ["/bin/bash", "-c", "tail -f /dev/null"]

/-- Lines 130 to 173: the pod object main builds from the generated pod name,
the resolved node name and the image. -/
def podDescriptor (podName nodeName image : String) : Pod :=
  { Kind := "Pod"
    APIVersion := "v1"
    ObjectMeta := { Name := podName, Namespace := "" }
    Spec :=
      { NodeSelector := [("kubernetes.io/hostname", nodeName)]
        Containers :=
          [{ Name := podName
             Image := image
             VolumeMounts := [{ MountPath := "/host", Name := "host-root" }]
             SecurityContext := some { Privileged := some true }
             Command := idleCommand }]
        Volumes := [{ Name := "host-root", HostPath := some "/" }]
        Tolerations :=
          [{ Key := "", Operator := .TolerationOpExists, Value := "", Effect := "" }] }
    Status := { Conditions := [] } }

/-! ## The calls main issues -/

/-- One call main makes on the cluster client, the watcher, the terminal or
the context, with the arguments the properties below speak of.  The flag
ctxDone of delete records whether the context handed to the call had already
been observed done when the call was made. -/
inductive Call where
  | listNodes
  | create (ns : String) (pod : Pod)
  | watch (ns : String) (name : String)
  | stop
  | delete (ns : String) (name : String) (ctxDone : Bool)
  | execRequest (ns : String) (name : String) (container : String) (command : List String)
  | newExecutor
  | makeRaw
  | stream
  | restore
  | cancel
  deriving DecidableEq, Repr

/-- Is the call a pod delete call (line 211). -/
def Call.isDelete : Call → Bool
  | .delete _ _ _ => true
  | _ => false

/-- Is the call the opening of the watch subscription (line 180). -/
def Call.isWatch : Call → Bool
  | .watch _ _ => true
  | _ => false

/-- Is the call part of the attachment: the exec request of lines 217 to
230, the executor of line 233 or the stream of line 244. -/
def Call.isExec : Call → Bool
  | .execRequest _ _ _ _ => true
  | .newExecutor => true
  | .stream => true
  | _ => false

/-! ## The readiness wait loop, lines 186 to 208 -/

/-- The watch.EventType values. -/
inductive EventType where
  | Added
  | Modified
  | Deleted
  | Bookmark
  | Error
  deriving DecidableEq, Repr

/-- The runtime.Object of a watch event: a pod, or an object of another type
(a metav1.Status for instance), on which the type assertion of line 195
panics. -/
inductive Object where
  | pod (p : Pod)
  | other
  deriving DecidableEq, Repr

/-- A watch.Event. -/
structure Event where
  Typ : EventType
  Object : Object
  deriving DecidableEq, Repr

/-- What one evaluation of the select of line 188 yields: an event received
from the result channel, the channel found closed, or the context done. -/
inductive Select where
  | recv (event : Event)
  | closed
  | done
  deriving DecidableEq, Repr

/-- The condition of lines 197 and 198. -/
def readyTrue (cond : PodCondition) : Bool :=
  decide (cond.Typ = PodConditionType.PodReady) && decide (cond.Status = ConditionStatus.ConditionTrue)

/-- Lines 196 to 201: one watcher.Stop() for each condition of the list that
is PodReady with status True. -/
def stopCalls (conds : List PodCondition) : List Call :=
  (conds.filter readyTrue).map (fun _ => Call.stop)

/-- How the loop stands once the outcomes given to it are used up: it has
returned (line 191 or 205), it has panicked (line 195), or it is still in
the select, pending. -/
inductive LoopEnd where
  | returned
  | panicked
  | pending
  deriving DecidableEq, Repr

/-- The state the loop leaves: the local variable pod, whether the context
was observed done, the calls issued (watcher.Stop only) and the number of
events taken from the result channel. -/
structure LoopResult where
  ending : LoopEnd
  pod : Pod
  ctxDone : Bool
  calls : List Call
  received : Nat
  deriving DecidableEq, Repr

/-- Lines 186 to 208, run on the successive outcomes of the select.  After
watcher.Stop() the loop does not return: it goes back to the select. -/
def waitLoop : List Select → Pod → LoopResult
  | [], pod => ⟨.pending, pod, false, [], 0⟩
  | .closed :: _, pod => ⟨.returned, pod, false, [], 0⟩
  | .done :: _, pod => ⟨.returned, pod, true, [], 0⟩
  | .recv event :: rest, pod =>
    match event.Typ with
    | .Modified =>
      match event.Object with
      | .pod p =>
        let r := waitLoop rest p
        { r with calls := stopCalls p.Status.Conditions ++ r.calls, received := r.received + 1 }
      | .other => ⟨.panicked, pod, false, [], 1⟩
    | _ =>
      let r := waitLoop rest pod
      { r with received := r.received + 1 }

/-! ## The run of main -/

/-- The answers of the environment to main. -/
structure Env where
  /-- The home directory of os.UserHomeDir (line 86), none on error. -/
  homeDir : Option String
  /-- Line 98 returns no error. -/
  clientConfigOk : Bool
  /-- Line 103 returns no error. -/
  newForConfigOk : Bool
  /-- The pointer returned by the node list call of line 108, none for nil. -/
  nodes : Option (List Node)
  /-- The string of uuid.NewString (line 128). -/
  uuid : String
  /-- Line 175 returns no error. -/
  createOk : Bool
  /-- Line 180 returns no error. -/
  watchOk : Bool
  /-- The outcomes of the select of line 188, in order. -/
  selects : List Select
  /-- Line 233 returns no error. -/
  executorOk : Bool
  /-- Line 238 returns no error. -/
  makeRawOk : Bool
  /-- Line 244 returns no error. -/
  streamOk : Bool
  /-- Line 211 returns no error. -/
  deleteOk : Bool
  deriving DecidableEq, Repr

/-- A deferred function of main. -/
inductive Deferred where
  | recoverLog
  | cancel
  | deletePod (ns : String) (name : String)
  | restore
  deriving DecidableEq, Repr

/-- How the body of main stops: by returning, by a panic, or never (blocked
in the select of the readiness loop). -/
inductive Flow where
  | returned
  | panicked
  | blocked
  deriving DecidableEq, Repr

/-- The body of main at the point it stops: the calls issued so far, the
functions deferred so far (the latest first), and whether the context was
observed done. -/
structure Frame where
  calls : List Call
  defers : List Deferred
  ctxDone : Bool
  flow : Flow
  deriving DecidableEq, Repr

/-- A run of main: the calls in the order they were issued, the status the
process ends with (none when main never returns), and whether the deferred
function of lines 35 to 39 recovered and logged a panic. -/
structure Run where
  calls : List Call
  status : Option Nat
  recovered : Bool
  deriving DecidableEq, Repr

/-- The deferred functions run last-in first-out.  A panic in the deferred
delete (line 213) leaves the run panicking; cancel makes the context done;
the recover of line 36 ends a panic.  A panic that is still live when the
stack is empty kills the process with status 2, else main returns and the
status is 0. -/
def runDeferred (env : Env) : List Deferred → List Call → Bool → Bool → Bool → Run
  | [], calls, _, panicking, recovered =>
    ⟨calls, some (if panicking then 2 else 0), recovered⟩
  | .restore :: ds, calls, ctxDone, panicking, recovered =>
    runDeferred env ds (calls ++ [Call.restore]) ctxDone panicking recovered
  | .deletePod ns name :: ds, calls, ctxDone, panicking, recovered =>
    runDeferred env ds (calls ++ [Call.delete ns name ctxDone]) ctxDone
      (panicking || !env.deleteOk) recovered
  | .cancel :: ds, calls, _, panicking, recovered =>
    runDeferred env ds (calls ++ [Call.cancel]) true panicking recovered
  | .recoverLog :: ds, calls, ctxDone, panicking, recovered =>
    runDeferred env ds calls ctxDone false (recovered || panicking)

/-- The end of main: nothing more happens when the body is blocked, else
the deferred functions run. -/
def finish (env : Env) (f : Frame) : Run :=
  match f.flow with
  | .blocked => ⟨f.calls, none, false⟩
  | .returned => runDeferred env f.defers f.calls f.ctxDone false false
  | .panicked => runDeferred env f.defers f.calls f.ctxDone true false

/-- Lines 210 to 252: the delete is deferred, then the exec request is
built, the executor made, the terminal put into raw mode and the stream
run.  An error of the stream is logged only (line 251). -/
def attach (env : Env) (ns podName : String) (ctxDone : Bool) (calls : List Call) : Frame :=
  let defers := [Deferred.deletePod ns podName, Deferred.cancel, Deferred.recoverLog]
  let calls := calls ++ [Call.execRequest ns podName podName ["/bin/bash"], Call.newExecutor]
  if !env.executorOk then ⟨calls, defers, ctxDone, .panicked⟩
  else if !env.makeRawOk then ⟨calls ++ [Call.makeRaw], defers, ctxDone, .panicked⟩
  else ⟨calls ++ [Call.makeRaw, Call.stream], Deferred.restore :: defers, ctxDone, .returned⟩

/-- Lines 180 to 252: the watch is opened, the readiness loop runs and, when
it returns, the attachment follows. -/
def watchAndAttach (env : Env) (ns podName : String) (pod : Pod) (calls : List Call) : Frame :=
  let defers := [Deferred.cancel, Deferred.recoverLog]
  let calls := calls ++ [Call.watch ns pod.ObjectMeta.Name]
  if !env.watchOk then ⟨calls, defers, false, .panicked⟩
  else
    match (waitLoop env.selects pod).ending with
    | .pending => ⟨calls ++ (waitLoop env.selects pod).calls, defers,
        (waitLoop env.selects pod).ctxDone, .blocked⟩
    | .panicked => ⟨calls ++ (waitLoop env.selects pod).calls, defers,
        (waitLoop env.selects pod).ctxDone, .panicked⟩
    | .returned => attach env ns podName (waitLoop env.selects pod).ctxDone
        (calls ++ (waitLoop env.selects pod).calls)

/-- The body of main, lines 35 to 252. -/
def mainBody (v : Vars) (env : Env) : Frame :=
  let defers := [Deferred.cancel, Deferred.recoverLog]
  if v.help then ⟨[], defers, false, .returned⟩
  else if v.kubeConfig = "" ∧ env.homeDir = none then ⟨[], defers, false, .panicked⟩
  else if !env.clientConfigOk then ⟨[], defers, false, .panicked⟩
  else if !env.newForConfigOk then ⟨[], defers, false, .panicked⟩
  else
    match nodeTarget env.nodes v.nodeName with
    | .error _ => ⟨[Call.listNodes], defers, false, .panicked⟩
    | .ok nodeName =>
      let podName := execName ++ env.uuid
      let pod := podDescriptor podName nodeName (if v.image = "" then "ubuntu" else v.image)
      let calls := [Call.listNodes, Call.create v.namespace_ pod]
      if !env.createOk then ⟨calls, defers, false, .panicked⟩
      else watchAndAttach env v.namespace_ podName pod calls

/-- The function main: its body, then its deferred functions. -/
def main (v : Vars) (env : Env) : Run :=
  finish env (mainBody v env)

/-- The steps before the node target resolution all succeed, so that main
reaches line 108: no help flag, a kube config path, a rest config and a
client set. -/
def reachesNodeList (v : Vars) (env : Env) : Prop :=
  v.help = false ∧ ¬ (v.kubeConfig = "" ∧ env.homeDir = none) ∧
    env.clientConfigOk = true ∧ env.newForConfigOk = true

/-- The steps before the pod creation call all succeed, so that main reaches
line 175. -/
def reachesCreate (v : Vars) (env : Env) : Prop :=
  reachesNodeList v env ∧ resolveNodeName env.nodes v.nodeName ≠ ""

/-- The pod main submits for creation on a run that reaches line 175. -/
def createdPod (v : Vars) (env : Env) : Pod :=
  podDescriptor (execName ++ env.uuid) (resolveNodeName env.nodes v.nodeName)
    (if v.image = "" then "ubuntu" else v.image)

/-! ## Concrete runs -/

/-- The variables of a run started with no flag at all. -/
def noFlags : Vars := parsedVars "" "" "" "" "" false

/-- An environment in which every call succeeds, two nodes are listed, and
the watch delivers the outcomes given. -/
def envWith (selects : List Select) : Env :=
  { homeDir := some "/root", clientConfigOk := true, newForConfigOk := true,
    nodes := some [⟨"n1"⟩, ⟨"n2"⟩], uuid := "u", createOk := true, watchOk := true,
    selects := selects, executorOk := true, makeRawOk := true, streamOk := true,
    deleteOk := true }

/-- A pod object as the watch reports it: the created pod with the given
name and conditions. -/
def reportedPod (name : String) (conds : List PodCondition) : Pod :=
  { podDescriptor name "n1" "ubuntu" with Status := { Conditions := conds } }

/-- A Modified event whose pod is not ready yet. -/
def notReadyEvent : Event :=
  ⟨.Modified, .pod (reportedPod "hackctlu" [⟨.PodScheduled, .ConditionTrue⟩, ⟨.PodReady, .ConditionFalse⟩])⟩

/-- An event of a change type the loop does not look at. -/
def unrelatedEvent : Event :=
  ⟨.Bookmark, .pod (reportedPod "hackctlu" [])⟩

/-- A Modified event whose pod has the condition PodReady with status True. -/
def readyEvent : Event :=
  ⟨.Modified, .pod (reportedPod "hackctlu" [⟨.PodScheduled, .ConditionTrue⟩, ⟨.PodReady, .ConditionTrue⟩])⟩

/-- The event leaves the loop pending and triggers no watcher.Stop(): its
change type is not Modified, or it is Modified with a pod none of whose
conditions is PodReady with status True. -/
def Event.keepsPending (e : Event) : Bool :=
  match e.Typ, e.Object with
  | .Modified, .pod p => !(p.Status.Conditions.any readyTrue)
  | .Modified, .other => false
  | _, _ => true

/-- The event is a Modified event whose pod has a condition PodReady with
status True. -/
def Event.resolves (e : Event) : Bool :=
  match e.Typ, e.Object with
  | .Modified, .pod p => p.Status.Conditions.any readyTrue
  | _, _ => false

/-- The event makes the type assertion of line 195 panic: it is a Modified
event whose object is not a pod. -/
def Event.panics (e : Event) : Bool :=
  match e.Typ, e.Object with
  | .Modified, .other => true
  | _, _ => false

/-- A Modified event, not ready, whose pod object carries another name and
another namespace than the pod main created. -/
def renamedEvent : Event :=
  ⟨.Modified, .pod { reportedPod "other-pod" [⟨.PodReady, .ConditionFalse⟩] with
      ObjectMeta := { Name := "other-pod", Namespace := "kube-system" } }⟩

/-- An Added event whose pod has the condition PodReady with status True. -/
def addedReadyEvent : Event :=
  ⟨.Added, .pod (reportedPod "hackctlu" [⟨.PodReady, .ConditionTrue⟩])⟩

/-- The environment of envWith in which the watch call of line 180 fails. -/
def envWatchFails : Env := { envWith [] with watchOk := false }

/-- The environment of envWith in which the create call of line 175 fails. -/
def envCreateFails : Env := { envWith [] with createOk := false }

/-- The environment of envWith in which the node list is empty. -/
def envNoNodes : Env := { envWith [] with nodes := some [] }

/-- The pod main creates on the concrete runs below. -/
def pod0 : Pod := podDescriptor "hackctlu" "n1" "ubuntu"

/-- A run in which the watch reports the pod not ready, then an unrelated
change, then the pod ready, and the channel is closed. -/
def envReady : Env :=
  envWith [.recv notReadyEvent, .recv unrelatedEvent, .recv readyEvent, .closed]

/-- A run in which the watch channel is closed after one event, none having
reported the pod ready. -/
def envClosed : Env := envWith [.recv notReadyEvent, .closed]

/-- A run in which the interruption signal makes the context done while the
loop is pending, after one event that did not report the pod ready. -/
def envInterrupted : Env := envWith [.recv notReadyEvent, .done]

/-- A run in which a Modified event carrying another name and namespace
follows the ready event, before the channel is closed. -/
def envRenamed : Env := envWith [.recv readyEvent, .recv renamedEvent, .closed]

/-! ## Lemmas on the readiness loop and on the run -/

/-- The loop issues no call other than watcher.Stop(). -/
theorem waitLoop_calls_stop (sel : List Select) :
    ∀ pod : Pod, ∀ c ∈ (waitLoop sel pod).calls, c = Call.stop := by
  induction sel with
  | nil => intro pod c hc; simp [waitLoop] at hc
  | cons o rest ih =>
    intro pod c hc
    cases o with
    | closed => simp [waitLoop] at hc
    | done => simp [waitLoop] at hc
    | recv event =>
      obtain ⟨t, ob⟩ := event
      cases t <;> cases ob <;> simp [waitLoop, stopCalls] at hc <;>
        first
          | exact ih _ c hc
          | (rcases hc with hc | hc
             · exact hc.2
             · exact ih _ c hc)

/-- No delete call comes out of the loop. -/
theorem waitLoop_filter_isDelete (sel : List Select) (pod : Pod) :
    (waitLoop sel pod).calls.filter Call.isDelete = [] := by
  rw [List.filter_eq_nil_iff]
  intro c hc
  rw [waitLoop_calls_stop sel pod c hc]
  simp [Call.isDelete]

/-- The run of main once the pod is created, the watch opened and the loop
has returned: the calls up to the loop, those of the loop, the attachment
as far as it gets, then the deferred functions. -/
theorem main_of_returned (v : Vars) (env : Env) (hpre : reachesCreate v env)
    (hcreate : env.createOk = true) (hwatch : env.watchOk = true)
    (hloop : (waitLoop env.selects (createdPod v env)).ending = LoopEnd.returned) :
    main v env =
      ⟨[Call.listNodes, Call.create v.namespace_ (createdPod v env),
          Call.watch v.namespace_ (execName ++ env.uuid)]
        ++ (waitLoop env.selects (createdPod v env)).calls
        ++ [Call.execRequest v.namespace_ (execName ++ env.uuid) (execName ++ env.uuid)
              ["/bin/bash"], Call.newExecutor]
        ++ (if env.executorOk then
              Call.makeRaw :: (if env.makeRawOk then [Call.stream, Call.restore] else [])
            else [])
        ++ [Call.delete v.namespace_ (execName ++ env.uuid)
              (waitLoop env.selects (createdPod v env)).ctxDone, Call.cancel],
       some 0,
       !(env.executorOk && env.makeRawOk) || !env.deleteOk⟩ := by
  obtain ⟨⟨h1, h2, h3, h4⟩, h5⟩ := hpre
  have hpod : podDescriptor (execName ++ env.uuid) (resolveNodeName env.nodes v.nodeName)
      (if v.image = "" then "ubuntu" else v.image) = createdPod v env := rfl
  simp only [main, mainBody, h1, h2, h3, h4, nodeTarget, h5, hcreate, watchAndAttach, hwatch,
    hpod, hloop, attach, Bool.false_eq_true, if_false, Bool.not_true]
  cases hx : env.executorOk <;> cases hr : env.makeRawOk <;> cases hd : env.deleteOk <;>
    simp [finish, runDeferred, createdPod, podDescriptor, hx, hr, hd]

/-- The run of main when the pod creation call returns an error. -/
theorem main_of_create_error (v : Vars) (env : Env) (hpre : reachesCreate v env)
    (hcreate : env.createOk = false) :
    main v env =
      ⟨[Call.listNodes, Call.create v.namespace_ (createdPod v env), Call.cancel],
       some 0, true⟩ := by
  obtain ⟨⟨h1, h2, h3, h4⟩, h5⟩ := hpre
  simp [main, mainBody, h1, h2, h3, h4, nodeTarget, h5, hcreate, finish, runDeferred,
    createdPod]

/-- The run of main when no node name is given and none is found. -/
theorem main_of_no_node (v : Vars) (env : Env) (hpre : reachesNodeList v env)
    (hnode : resolveNodeName env.nodes v.nodeName = "") :
    main v env = ⟨[Call.listNodes, Call.cancel], some 0, true⟩ := by
  obtain ⟨h1, h2, h3, h4⟩ := hpre
  simp [main, mainBody, h1, h2, h3, h4, nodeTarget, hnode, finish, runDeferred]

/-- Events that keep the loop pending are passed over: the loop goes on with
the outcomes that follow, and only the count of received events and the
local variable pod record them. -/
theorem waitLoop_pending_prefix (pre : List Event) (sel : List Select) :
    ∀ pod : Pod, (∀ x ∈ pre, x.keepsPending = true) →
      ∃ pod1 : Pod, waitLoop (pre.map Select.recv ++ sel) pod =
        { waitLoop sel pod1 with received := (waitLoop sel pod1).received + pre.length } := by
  induction pre with
  | nil => intro pod _; exact ⟨pod, by simp⟩
  | cons e pre ih =>
    intro pod h
    have he := h e (List.mem_cons_self _ _)
    have hrest : ∀ x ∈ pre, x.keepsPending = true := fun x hx => h x (List.mem_cons_of_mem _ hx)
    obtain ⟨t, ob⟩ := e
    cases t <;> cases ob <;> simp [Event.keepsPending] at he <;>
      first
        | (obtain ⟨pod1, h1⟩ := ih pod hrest
           refine ⟨pod1, ?_⟩
           simp [waitLoop, h1, Nat.add_assoc]
           done)
        | (rename_i p
           obtain ⟨pod1, h1⟩ := ih p hrest
           refine ⟨pod1, ?_⟩
           have hs : stopCalls p.Status.Conditions = [] := by
             simp only [stopCalls, List.map_eq_nil_iff, List.filter_eq_nil_iff]
             intro c hc
             simp [he c hc]
           simp [waitLoop, h1, hs, Nat.add_assoc])

/-- A Modified event with a PodReady condition of status True triggers at
least one watcher.Stop(), and the loop goes on with the next outcome. -/
theorem waitLoop_resolving_event (e : Event) (sel : List Select) (pod : Pod)
    (he : e.resolves = true) :
    ∃ pod1 : Pod, ∃ stops : List Call, stops ≠ [] ∧
      waitLoop (Select.recv e :: sel) pod =
        { waitLoop sel pod1 with
            calls := stops ++ (waitLoop sel pod1).calls,
            received := (waitLoop sel pod1).received + 1 } := by
  obtain ⟨t, ob⟩ := e
  cases t <;> cases ob <;> simp [Event.resolves] at he
  rename_i p
  obtain ⟨c, hc, hready⟩ := he
  refine ⟨p, stopCalls p.Status.Conditions, ?_, by simp [waitLoop]⟩
  intro hnil
  simp only [stopCalls, List.map_eq_nil_iff, List.filter_eq_nil_iff] at hnil
  exact hnil c hc hready

/-- An event that keeps the loop pending does not panic. -/
theorem panics_of_keepsPending (e : Event) (h : e.keepsPending = true) : e.panics = false := by
  obtain ⟨t, ob⟩ := e
  cases t <;> cases ob <;> simp [Event.keepsPending] at h <;> simp [Event.panics]

/-- A Modified event with a ready pod does not panic. -/
theorem panics_of_resolves (e : Event) (h : e.resolves = true) : e.panics = false := by
  obtain ⟨t, ob⟩ := e
  cases t <;> cases ob <;> simp [Event.resolves] at h
  simp [Event.panics]

/-- Events that do not panic are all received, whether or not they report
the pod ready: the loop goes on with the outcomes that follow them. -/
theorem waitLoop_safe_prefix (evs : List Event) (sel : List Select) :
    ∀ pod : Pod, (∀ x ∈ evs, x.panics = false) →
      ∃ pod1 : Pod, ∃ stops : List Call,
        waitLoop (evs.map Select.recv ++ sel) pod =
          { waitLoop sel pod1 with
              calls := stops ++ (waitLoop sel pod1).calls,
              received := (waitLoop sel pod1).received + evs.length } := by
  induction evs with
  | nil => intro pod _; exact ⟨pod, [], by simp⟩
  | cons e evs ih =>
    intro pod h
    have he := h e (List.mem_cons_self _ _)
    have hrest : ∀ x ∈ evs, x.panics = false := fun x hx => h x (List.mem_cons_of_mem _ hx)
    obtain ⟨t, ob⟩ := e
    cases t <;> cases ob <;> simp [Event.panics] at he <;>
      first
        | (obtain ⟨pod1, stops, h1⟩ := ih pod hrest
           refine ⟨pod1, stops, ?_⟩
           simp [waitLoop, h1, Nat.add_assoc]
           done)
        | (rename_i p
           obtain ⟨pod1, stops, h1⟩ := ih p hrest
           refine ⟨pod1, stopCalls p.Status.Conditions ++ stops, ?_⟩
           simp [waitLoop, h1, Nat.add_assoc])

/-- The loop returns only at an outcome that is the closed channel or the
done context, having received every event before it. -/
theorem waitLoop_returned_only (sel : List Select) :
    ∀ pod : Pod, (waitLoop sel pod).ending = LoopEnd.returned →
      ∃ evs : List Event, ∃ last : Select, ∃ rest : List Select,
        sel = evs.map Select.recv ++ last :: rest ∧
        (last = Select.closed ∨ last = Select.done) ∧
        (∀ x ∈ evs, x.panics = false) ∧
        (waitLoop sel pod).received = evs.length := by
  induction sel with
  | nil => intro pod h; simp [waitLoop] at h
  | cons o sel ih =>
    intro pod h
    cases o with
    | closed => exact ⟨[], Select.closed, sel, by simp, Or.inl rfl, by simp, by simp [waitLoop]⟩
    | done => exact ⟨[], Select.done, sel, by simp, Or.inr rfl, by simp, by simp [waitLoop]⟩
    | recv event =>
      have key : ∃ pod1 : Pod, (waitLoop sel pod1).ending = LoopEnd.returned ∧
          (waitLoop (Select.recv event :: sel) pod).received = (waitLoop sel pod1).received + 1 ∧
          event.panics = false := by
        obtain ⟨t, ob⟩ := event
        cases t <;> cases ob <;> simp [waitLoop] at h <;>
          exact ⟨_, h, by simp [waitLoop], by simp [Event.panics]⟩
      obtain ⟨pod1, hend, hcount, hev⟩ := key
      obtain ⟨evs, last, rest, hsel, hlast, hsafe, hrecv⟩ := ih pod1 hend
      refine ⟨event :: evs, last, rest, by simp [hsel], hlast, ?_, by simp [hcount, hrecv]⟩
      intro x hx
      rcases List.mem_cons.mp hx with hx | hx
      · rw [hx]; exact hev
      · exact hsafe x hx

/-- Every run of main either issues no delete call and no attachment call,
or it created the pod, opened the watch and saw the loop return. -/
theorem main_calls_cases (v : Vars) (env : Env) :
    (∀ c ∈ (main v env).calls, c.isDelete = false ∧ c.isExec = false) ∨
    (reachesCreate v env ∧ env.createOk = true ∧ env.watchOk = true ∧
      (waitLoop env.selects (createdPod v env)).ending = LoopEnd.returned) := by
  by_cases h1 : v.help = true
  · left; simp [main, mainBody, h1, finish, runDeferred, Call.isDelete, Call.isExec]
  by_cases h2 : v.kubeConfig = "" ∧ env.homeDir = none
  · left; simp [main, mainBody, h1, h2, finish, runDeferred, Call.isDelete, Call.isExec]
  by_cases h3 : env.clientConfigOk = true
  swap
  · left; simp [main, mainBody, h1, h2, h3, finish, runDeferred, Call.isDelete, Call.isExec]
  by_cases h4 : env.newForConfigOk = true
  swap
  · left; simp [main, mainBody, h1, h2, h3, h4, finish, runDeferred, Call.isDelete, Call.isExec]
  have hlist : reachesNodeList v env := ⟨by simpa using h1, h2, h3, h4⟩
  by_cases h5 : resolveNodeName env.nodes v.nodeName = ""
  · left; rw [main_of_no_node v env hlist h5]; simp [Call.isDelete, Call.isExec]
  have hpre : reachesCreate v env := ⟨hlist, h5⟩
  by_cases h6 : env.createOk = true
  swap
  · left; rw [main_of_create_error v env hpre (by simpa using h6)]
    simp [Call.isDelete, Call.isExec]
  by_cases h7 : env.watchOk = true
  swap
  · left
    simp [main, mainBody, h1, h2, h3, h4, nodeTarget, h5, h6, watchAndAttach, h7, finish,
      runDeferred, Call.isDelete, Call.isExec]
  by_cases h8 : (waitLoop env.selects (createdPod v env)).ending = LoopEnd.returned
  · right; exact ⟨hpre, h6, h7, h8⟩
  left
  have hpod : podDescriptor (execName ++ env.uuid) (resolveNodeName env.nodes v.nodeName)
      (if v.image = "" then "ubuntu" else v.image) = createdPod v env := rfl
  have hstop := waitLoop_calls_stop env.selects (createdPod v env)
  intro c hc
  simp only [main, mainBody, h1, h2, h3, h4, nodeTarget, h5, h6, watchAndAttach, h7, hpod,
    Bool.false_eq_true, if_false, Bool.not_true] at hc
  cases hend : (waitLoop env.selects (createdPod v env)).ending with
  | returned => exact absurd hend h8
  | panicked =>
    simp [hend, finish, runDeferred] at hc
    rcases hc with hc | hc | hc | hc | hc
    · simp [hc, Call.isDelete, Call.isExec]
    · simp [hc, Call.isDelete, Call.isExec]
    · simp [hc, Call.isDelete, Call.isExec]
    · simp [hstop c hc, Call.isDelete, Call.isExec]
    · simp [hc, Call.isDelete, Call.isExec]
  | pending =>
    simp [hend, finish] at hc
    rcases hc with hc | hc | hc | hc
    · simp [hc, Call.isDelete, Call.isExec]
    · simp [hc, Call.isDelete, Call.isExec]
    · simp [hc, Call.isDelete, Call.isExec]
    · simp [hstop c hc, Call.isDelete, Call.isExec]

/-! ## The cleanup obligation -/

/-- Claim C1, which the code breaks: when the pod creation call succeeds and
the opening of the watch subscription fails, main panics at line 182 before
the delete is deferred at line 210, so the run issues the create call, no
delete call, and main returns. -/
theorem C1_watch_failure_issues_no_delete :
    envWatchFails.createOk = true ∧
    main noFlags envWatchFails =
      ⟨[Call.listNodes, Call.create "default" pod0, Call.watch "default" "hackctlu",
        Call.cancel], some 0, true⟩ ∧
    (main noFlags envWatchFails).calls.filter Call.isDelete = [] := by
  decide

/-- Claim C2: on every run in which the pod creation succeeds and the
readiness loop returns, exactly one delete call is issued, for the created
pod, and main returns, whatever the executor construction, the raw mode, the
stream and the delete itself answer. -/
theorem C2_delete_exactly_once (v : Vars) (env : Env) (hpre : reachesCreate v env)
    (hcreate : env.createOk = true) (hwatch : env.watchOk = true)
    (hloop : (waitLoop env.selects (createdPod v env)).ending = LoopEnd.returned) :
    (main v env).calls.filter Call.isDelete =
      [Call.delete v.namespace_ (execName ++ env.uuid)
        (waitLoop env.selects (createdPod v env)).ctxDone] ∧
    (main v env).calls.countP Call.isDelete = 1 ∧
    (main v env).status = some 0 := by
  have hfilter : (main v env).calls.filter Call.isDelete =
      [Call.delete v.namespace_ (execName ++ env.uuid)
        (waitLoop env.selects (createdPod v env)).ctxDone] := by
    rw [main_of_returned v env hpre hcreate hwatch hloop]
    cases env.executorOk <;> cases env.makeRawOk <;>
      simp [List.filter_append, waitLoop_filter_isDelete, Call.isDelete, List.filter_cons]
  refine ⟨hfilter, ?_, ?_⟩
  · rw [List.countP_eq_length_filter, hfilter]; rfl
  · rw [main_of_returned v env hpre hcreate hwatch hloop]

/-- The run envReady meets the hypotheses of C2 and issues its one delete. -/
theorem C2_delete_exactly_once_witness :
    reachesCreate noFlags envReady ∧ envReady.createOk = true ∧ envReady.watchOk = true ∧
    (waitLoop envReady.selects (createdPod noFlags envReady)).ending = LoopEnd.returned ∧
    ((main noFlags envReady).calls.filter Call.isDelete =
        [Call.delete "default" "hackctlu" false] ∧
      (main noFlags envReady).calls.countP Call.isDelete = 1 ∧
      (main noFlags envReady).status = some 0) :=
  ⟨⟨⟨rfl, by decide, rfl, rfl⟩, by decide⟩, rfl, rfl, by decide,
    C2_delete_exactly_once noFlags envReady ⟨⟨rfl, by decide, rfl, rfl⟩, by decide⟩ rfl rfl
      (by decide)⟩

/-- Claim C3: on every run in which the pod creation call is issued and
returns an error, the run holds no delete call, no watch call and no
attachment call. -/
theorem C3_create_error_no_delete (v : Vars) (env : Env) (hpre : reachesCreate v env)
    (hcreate : env.createOk = false) :
    Call.create v.namespace_ (createdPod v env) ∈ (main v env).calls ∧
    ∀ c ∈ (main v env).calls, c.isDelete = false ∧ c.isWatch = false ∧ c.isExec = false := by
  rw [main_of_create_error v env hpre hcreate]
  simp [Call.isDelete, Call.isWatch, Call.isExec]

/-- The run envCreateFails meets the hypotheses of C3. -/
theorem C3_create_error_no_delete_witness :
    reachesCreate noFlags envCreateFails ∧ envCreateFails.createOk = false ∧
    (Call.create "default" pod0 ∈ (main noFlags envCreateFails).calls ∧
      ∀ c ∈ (main noFlags envCreateFails).calls,
        c.isDelete = false ∧ c.isWatch = false ∧ c.isExec = false) :=
  ⟨⟨⟨rfl, by decide, rfl, rfl⟩, by decide⟩, rfl,
    C3_create_error_no_delete noFlags envCreateFails ⟨⟨rfl, by decide, rfl, rfl⟩, by decide⟩ rfl⟩

/-! ## The attachment after the readiness wait -/

/-- Claim C4 fails as stated: on the run envClosed the watch channel is closed
though no event reported the pod ready, and on the run envInterrupted the
context is done while the loop is pending; on both main builds the exec
request and opens the stream. -/
theorem C4_attach_after_unready_wait :
    (waitLoop envClosed.selects pod0).calls = [] ∧
    Call.execRequest "default" "hackctlu" "hackctlu" ["/bin/bash"] ∈
      (main noFlags envClosed).calls ∧
    Call.stream ∈ (main noFlags envClosed).calls ∧
    (waitLoop envInterrupted.selects pod0).calls = [] ∧
    Call.execRequest "default" "hackctlu" "hackctlu" ["/bin/bash"] ∈
      (main noFlags envInterrupted).calls ∧
    Call.stream ∈ (main noFlags envInterrupted).calls := by
  decide

/-- Claim C4 as amended: when the watch channel is closed, or the context is
done, after events none of which made the loop call watcher.Stop(), main does
not skip the attachment: it builds the exec request, it opens the stream
exactly when the executor construction and the raw mode succeed, and it
issues the one delete call for the created pod. -/
theorem C4_attach_not_skipped (v : Vars) (env : Env) (pre : List Event) (last : Select)
    (rest : List Select) (hpre : reachesCreate v env) (hcreate : env.createOk = true)
    (hwatch : env.watchOk = true)
    (hsel : env.selects = pre.map Select.recv ++ last :: rest)
    (hpending : ∀ x ∈ pre, x.keepsPending = true)
    (hlast : last = Select.closed ∨ last = Select.done) :
    Call.execRequest v.namespace_ (execName ++ env.uuid) (execName ++ env.uuid) ["/bin/bash"]
      ∈ (main v env).calls ∧
    (Call.stream ∈ (main v env).calls ↔ env.executorOk = true ∧ env.makeRawOk = true) ∧
    (main v env).calls.filter Call.isDelete =
      [Call.delete v.namespace_ (execName ++ env.uuid) (decide (last = Select.done))] := by
  obtain ⟨pod1, h1⟩ := waitLoop_pending_prefix pre (last :: rest) (createdPod v env) hpending
  rw [← hsel] at h1
  have hend : (waitLoop env.selects (createdPod v env)).ending = LoopEnd.returned := by
    rw [h1]; rcases hlast with h | h <;> simp [h, waitLoop]
  have hcalls : (waitLoop env.selects (createdPod v env)).calls = [] := by
    rw [h1]; rcases hlast with h | h <;> simp [h, waitLoop]
  have hctx : (waitLoop env.selects (createdPod v env)).ctxDone = decide (last = Select.done) := by
    rw [h1]; rcases hlast with h | h <;> simp [h, waitLoop]
  rw [main_of_returned v env hpre hcreate hwatch hend, hcalls, hctx]
  cases env.executorOk <;> cases env.makeRawOk <;>
    simp [List.filter_append, Call.isDelete, List.filter_cons]

/-- The run envClosed meets the hypotheses of the amended C4. -/
theorem C4_attach_not_skipped_witness :
    reachesCreate noFlags envClosed ∧ envClosed.createOk = true ∧ envClosed.watchOk = true ∧
    envClosed.selects = [notReadyEvent].map Select.recv ++ Select.closed :: [] ∧
    (∀ x ∈ [notReadyEvent], x.keepsPending = true) ∧
    (Call.execRequest "default" "hackctlu" "hackctlu" ["/bin/bash"]
        ∈ (main noFlags envClosed).calls ∧
      (Call.stream ∈ (main noFlags envClosed).calls ↔
        envClosed.executorOk = true ∧ envClosed.makeRawOk = true) ∧
      (main noFlags envClosed).calls.filter Call.isDelete =
        [Call.delete "default" "hackctlu" false]) :=
  ⟨⟨⟨rfl, by decide, rfl, rfl⟩, by decide⟩, rfl, rfl, rfl, by decide,
    C4_attach_not_skipped noFlags envClosed [notReadyEvent] Select.closed []
      ⟨⟨rfl, by decide, rfl, rfl⟩, by decide⟩ rfl rfl rfl (by decide) (Or.inl rfl)⟩

/-! ## The readiness loop -/

/-- Claim C5 fails as stated: after the ready event the loop has not returned
and takes the next event from the channel, be it a second ready event or one
that overwrites the local variable pod; and an event whose pod has the
condition PodReady with status True, but whose change type is Added, triggers
nothing. -/
theorem C5_loop_goes_on_after_ready :
    (waitLoop [.recv readyEvent] pod0).ending = LoopEnd.pending ∧
    (waitLoop [.recv readyEvent, .recv readyEvent] pod0).ending = LoopEnd.pending ∧
    (waitLoop [.recv readyEvent, .recv readyEvent] pod0).received = 2 ∧
    (waitLoop [.recv readyEvent, .recv renamedEvent, .closed] pod0).received = 2 ∧
    (waitLoop [.recv readyEvent, .recv renamedEvent, .closed] pod0).pod.ObjectMeta.Name
      = "other-pod" ∧
    (waitLoop [.recv addedReadyEvent] pod0).calls = [] ∧
    (waitLoop [.recv addedReadyEvent, .recv readyEvent] pod0).received = 2 := by
  decide

/-- Claim C5 as amended.  When every earlier event is of another change type
than Modified, or is Modified with no condition PodReady of status True, the
loop is pending after them with no watcher.Stop() issued, and the first
Modified event with such a condition triggers watcher.Stop().  The loop does
not return at that event: whatever events are delivered after it, ready or
not (short of a Modified event whose object is not a pod, on which line 195
panics), the loop receives every one of them and is still pending; it
returns when the channel is then found closed or the context done; and on
any sequence of outcomes it returns only at such an outcome, having received
every event before it. -/
theorem C5_stop_at_first_ready_modified (pre : List Event) (e : Event) (post : List Event)
    (pod : Pod) (hpre : ∀ x ∈ pre, x.keepsPending = true) (he : e.resolves = true)
    (hpost : ∀ x ∈ post, x.panics = false) :
    ((waitLoop (pre.map Select.recv) pod).ending = LoopEnd.pending ∧
      (waitLoop (pre.map Select.recv) pod).calls = []) ∧
    ((waitLoop (pre.map Select.recv ++ [Select.recv e]) pod).calls ≠ [] ∧
      (∀ c ∈ (waitLoop (pre.map Select.recv ++ [Select.recv e]) pod).calls, c = Call.stop)) ∧
    ((waitLoop (pre.map Select.recv ++ Select.recv e :: post.map Select.recv) pod).ending
        = LoopEnd.pending ∧
      (waitLoop (pre.map Select.recv ++ Select.recv e :: post.map Select.recv) pod).received
        = pre.length + 1 + post.length) ∧
    (∀ last : Select, last = Select.closed ∨ last = Select.done → ∀ rest : List Select,
      (waitLoop (pre.map Select.recv ++
          Select.recv e :: (post.map Select.recv ++ last :: rest)) pod).ending
        = LoopEnd.returned ∧
      (waitLoop (pre.map Select.recv ++
          Select.recv e :: (post.map Select.recv ++ last :: rest)) pod).received
        = pre.length + 1 + post.length ∧
      (waitLoop (pre.map Select.recv ++
          Select.recv e :: (post.map Select.recv ++ last :: rest)) pod).ctxDone
        = decide (last = Select.done)) ∧
    (∀ sel : List Select, ∀ pod1 : Pod, (waitLoop sel pod1).ending = LoopEnd.returned →
      ∃ evs : List Event, ∃ last : Select, ∃ rest : List Select,
        sel = evs.map Select.recv ++ last :: rest ∧
        (last = Select.closed ∨ last = Select.done) ∧
        (waitLoop sel pod1).received = evs.length) := by
  have hall : ∀ x ∈ pre ++ e :: post, x.panics = false := by
    intro x hx
    rcases List.mem_append.mp hx with hx | hx
    · exact panics_of_keepsPending x (hpre x hx)
    · rcases List.mem_cons.mp hx with hx | hx
      · rw [hx]; exact panics_of_resolves e he
      · exact hpost x hx
  have hlen : (pre ++ e :: post).length = pre.length + 1 + post.length := by
    simp [Nat.add_comm, Nat.add_left_comm]
  refine ⟨?_, ?_, ?_, ?_, ?_⟩
  · obtain ⟨pod1, h1⟩ := waitLoop_pending_prefix pre [] pod hpre
    rw [List.append_nil] at h1
    rw [h1]; simp [waitLoop]
  · obtain ⟨pod1, h1⟩ := waitLoop_pending_prefix pre [Select.recv e] pod hpre
    obtain ⟨pod2, stops, hstops, h2⟩ := waitLoop_resolving_event e [] pod1 he
    refine ⟨?_, waitLoop_calls_stop _ pod⟩
    rw [h1, h2]; simpa [waitLoop] using hstops
  · obtain ⟨pod1, stops, h1⟩ := waitLoop_safe_prefix (pre ++ e :: post) [] pod hall
    simp only [List.map_append, List.map_cons, List.append_nil] at h1
    rw [h1, hlen]; simp [waitLoop]
  · intro last hlast rest
    obtain ⟨pod1, stops, h1⟩ := waitLoop_safe_prefix (pre ++ e :: post) (last :: rest) pod hall
    simp only [List.map_append, List.map_cons, List.append_assoc, List.cons_append] at h1
    rw [h1, hlen]
    rcases hlast with h | h <;> simp [h, waitLoop]
  · intro sel pod1 hret
    obtain ⟨evs, last, rest, hsel, hlast, _, hrecv⟩ := waitLoop_returned_only sel pod1 hret
    exact ⟨evs, last, rest, hsel, hlast, hrecv⟩

/-- The sequence NotReady, Unrelated, Ready: no watcher.Stop() after the
first two events, one at the third; a second ready event and a renamed pod
delivered after it are both received, and the loop returns at the close that
follows them. -/
theorem C5_stop_at_first_ready_modified_witness :
    (∀ x ∈ [notReadyEvent, unrelatedEvent], x.keepsPending = true) ∧
    readyEvent.resolves = true ∧
    (∀ x ∈ [readyEvent, renamedEvent], x.panics = false) ∧
    (waitLoop [.recv notReadyEvent, .recv unrelatedEvent] pod0).calls = [] ∧
    (waitLoop [.recv notReadyEvent, .recv unrelatedEvent] pod0).ending = LoopEnd.pending ∧
    (waitLoop [.recv notReadyEvent, .recv unrelatedEvent, .recv readyEvent] pod0).calls
      = [Call.stop] ∧
    ((waitLoop [.recv notReadyEvent, .recv unrelatedEvent, .recv readyEvent,
        .recv readyEvent, .recv renamedEvent] pod0).ending = LoopEnd.pending ∧
      (waitLoop [.recv notReadyEvent, .recv unrelatedEvent, .recv readyEvent,
        .recv readyEvent, .recv renamedEvent] pod0).received = 2 + 1 + 2) ∧
    ((waitLoop [.recv notReadyEvent, .recv unrelatedEvent, .recv readyEvent,
        .recv readyEvent, .recv renamedEvent, .closed] pod0).ending = LoopEnd.returned ∧
      (waitLoop [.recv notReadyEvent, .recv unrelatedEvent, .recv readyEvent,
        .recv readyEvent, .recv renamedEvent, .closed] pod0).received = 2 + 1 + 2 ∧
      (waitLoop [.recv notReadyEvent, .recv unrelatedEvent, .recv readyEvent,
        .recv readyEvent, .recv renamedEvent, .closed] pod0).ctxDone = false) :=
  ⟨by decide, by decide, by decide,
    (C5_stop_at_first_ready_modified [notReadyEvent, unrelatedEvent] readyEvent
      [readyEvent, renamedEvent] pod0 (by decide) (by decide) (by decide)).1.2,
    (C5_stop_at_first_ready_modified [notReadyEvent, unrelatedEvent] readyEvent
      [readyEvent, renamedEvent] pod0 (by decide) (by decide) (by decide)).1.1,
    by decide,
    (C5_stop_at_first_ready_modified [notReadyEvent, unrelatedEvent] readyEvent
      [readyEvent, renamedEvent] pod0 (by decide) (by decide) (by decide)).2.2.1,
    (C5_stop_at_first_ready_modified [notReadyEvent, unrelatedEvent] readyEvent
      [readyEvent, renamedEvent] pod0 (by decide) (by decide) (by decide)).2.2.2.1
      Select.closed (Or.inl rfl) []⟩

/-! ## The pod descriptor -/

/-- Claim C6: whatever the variables of main (node name, image, namespace)
and the environment, the pod main submits has the node selector made of the
single pair of kubernetes.io/hostname and the resolved node name, one
container, privileged, running the idle command, with a volume mount named
host-root that refers to a declared volume whose source is the host path /,
and a toleration with operator Exists and no key. -/
theorem C6_pod_descriptor (v : Vars) (env : Env) :
    (createdPod v env).Spec.NodeSelector
      = [("kubernetes.io/hostname", resolveNodeName env.nodes v.nodeName)] ∧
    (∃ c : Container, (createdPod v env).Spec.Containers = [c] ∧
      c.SecurityContext = some { Privileged := some true } ∧
      c.Command = ["/bin/bash", "-c", "tail -f /dev/null"] ∧
      ∃ m ∈ c.VolumeMounts, m.Name = "host-root" ∧
        ∃ vol ∈ (createdPod v env).Spec.Volumes, vol.Name = m.Name ∧ vol.HostPath = some "/") ∧
    (∃ t ∈ (createdPod v env).Spec.Tolerations,
      t.Operator = TolerationOperator.TolerationOpExists ∧ t.Key = "" ∧ t.Effect = "") := by
  refine ⟨rfl, ⟨_, rfl, rfl, rfl, ?_⟩, ?_⟩
  · exact ⟨_, List.mem_singleton.mpr rfl, rfl, _, List.mem_singleton.mpr rfl, rfl, rfl⟩
  · exact ⟨_, List.mem_singleton.mpr rfl, rfl, rfl, rfl⟩

/-! ## Fatal errors -/

/-- Claim C7 fails as stated: with no node name given and no node listed, and
also when the pod creation call returns an error, the panic is recovered by
the deferred function of lines 35 to 39 and main returns, so the process ends
with status 0. -/
theorem C7_fatal_error_status_zero :
    noFlags.nodeName = "" ∧ resolveNodeName envNoNodes.nodes noFlags.nodeName = "" ∧
    (main noFlags envNoNodes).status = some 0 ∧
    envCreateFails.createOk = false ∧
    Call.create "default" pod0 ∈ (main noFlags envCreateFails).calls ∧
    (main noFlags envCreateFails).status = some 0 := by
  decide

/-- Claim C7 as amended: on every run that gets as far as the node list, when
no node name is given and none is found, or when the pod creation call
returns an error, main issues no delete, watch or attachment call, the panic
is recovered and logged by the deferred function of lines 35 to 39, and the
process ends with status 0. -/
theorem C7_fatal_error_recovered (v : Vars) (env : Env) (hlist : reachesNodeList v env)
    (hfatal : (v.nodeName = "" ∧ resolveNodeName env.nodes v.nodeName = "") ∨
      (resolveNodeName env.nodes v.nodeName ≠ "" ∧ env.createOk = false)) :
    (main v env).status = some 0 ∧ (main v env).recovered = true ∧
    ∀ c ∈ (main v env).calls, c.isDelete = false ∧ c.isWatch = false ∧ c.isExec = false := by
  rcases hfatal with ⟨_, hnode⟩ | ⟨hnode, hcreate⟩
  · rw [main_of_no_node v env hlist hnode]
    simp [Call.isDelete, Call.isWatch, Call.isExec]
  · rw [main_of_create_error v env ⟨hlist, hnode⟩ hcreate]
    simp [Call.isDelete, Call.isWatch, Call.isExec]

/-- The run envNoNodes meets the hypotheses of the amended C7. -/
theorem C7_fatal_error_recovered_witness :
    reachesNodeList noFlags envNoNodes ∧
    (noFlags.nodeName = "" ∧ resolveNodeName envNoNodes.nodes noFlags.nodeName = "") ∧
    ((main noFlags envNoNodes).status = some 0 ∧ (main noFlags envNoNodes).recovered = true ∧
      ∀ c ∈ (main noFlags envNoNodes).calls,
        c.isDelete = false ∧ c.isWatch = false ∧ c.isExec = false) :=
  ⟨⟨rfl, by decide, rfl, rfl⟩, ⟨rfl, by decide⟩,
    C7_fatal_error_recovered noFlags envNoNodes ⟨rfl, by decide, rfl, rfl⟩
      (Or.inl ⟨rfl, by decide⟩)⟩

/-! ## Cleanup after an interruption -/

/-- Claim C8, which the code breaks: on the run envInterrupted the signal
makes the context done while the loop is pending; the loop returns at line
205 and the one delete call of the run is issued with that same context,
already done. -/
theorem C8_delete_with_done_context :
    (waitLoop envInterrupted.selects pod0).ending = LoopEnd.returned ∧
    (waitLoop envInterrupted.selects pod0).ctxDone = true ∧
    (main noFlags envInterrupted).calls.filter Call.isDelete
      = [Call.delete "default" "hackctlu" true] := by
  decide

/-! ## Node target resolution -/

/-- Claim C9 fails as stated: with no name supplied and a list of two nodes
whose first has the empty name, line 115 takes the empty name and line 125
panics, so the resolution fails although nodes are listed. -/
theorem C9_first_node_without_name :
    resolveNodeName (some [⟨""⟩, ⟨"n2"⟩]) "" = "" ∧
    nodeTarget (some [⟨""⟩, ⟨"n2"⟩]) ""
      = Except.error "cannot attach to a node if none is given or found" :=
  ⟨by decide, rfl⟩

/-- Claim C9 as amended: for every node list, an empty supplied name makes
nodeName the name of the first listed node, which is the target when it is
not empty; a supplied name that is not empty is the target unchanged, whether
or not it is listed; and the resolution fails exactly when the supplied name
is empty and either no node is listed or the first listed node has the empty
name. -/
theorem C9_node_target (nodes : Option (List Node)) (nodeName : String) :
    (∀ first : Node, ∀ rest : List Node, nodeName = "" → nodes = some (first :: rest) →
      resolveNodeName nodes nodeName = first.Name ∧
      (first.Name ≠ "" → nodeTarget nodes nodeName = Except.ok first.Name)) ∧
    (nodeName ≠ "" → nodeTarget nodes nodeName = Except.ok nodeName) ∧
    ((∃ msg : String, nodeTarget nodes nodeName = Except.error msg) ↔
      nodeName = "" ∧ (nodes = none ∨ nodes = some [] ∨
        ∃ first : Node, ∃ rest : List Node, nodes = some (first :: rest) ∧ first.Name = "")) := by
  refine ⟨?_, ?_, ?_⟩
  · intro first rest hempty hnodes
    refine ⟨by simp [resolveNodeName, hnodes, hempty], ?_⟩
    intro hfirst
    simp [nodeTarget, resolveNodeName, hnodes, hempty, hfirst]
  · intro hne
    have hres : resolveNodeName nodes nodeName = nodeName := by
      cases nodes with
      | none => rfl
      | some items => cases items <;> simp [resolveNodeName, hne]
    simp [nodeTarget, hres, hne]
  · cases nodes with
    | none =>
      by_cases hempty : nodeName = "" <;> simp [nodeTarget, resolveNodeName, hempty]
    | some items =>
      cases items with
      | nil => by_cases hempty : nodeName = "" <;> simp [nodeTarget, resolveNodeName, hempty]
      | cons first rest =>
        by_cases hempty : nodeName = "" <;> by_cases hfirst : first.Name = "" <;>
          simp [nodeTarget, resolveNodeName, hempty, hfirst]

/-- The two scenarios of the specification: no name and the nodes n1, n2
give n1; the name n9 and the nodes n1, n2 give n9. -/
theorem C9_node_target_witness :
    nodeTarget (some [⟨"n1"⟩, ⟨"n2"⟩]) "" = Except.ok "n1" ∧
    nodeTarget (some [⟨"n1"⟩, ⟨"n2"⟩]) "n9" = Except.ok "n9" :=
  ⟨((C9_node_target (some [⟨"n1"⟩, ⟨"n2"⟩]) "").1 ⟨"n1"⟩ [⟨"n2"⟩] rfl rfl).2 (by decide),
    (C9_node_target (some [⟨"n1"⟩, ⟨"n2"⟩]) "n9").2.1 (by decide)⟩

/-! ## The identity acted on -/

/-- Claim C10: on every run, whatever the watch events and the pod objects
they carry, a delete call is issued in the namespace of the create call and
for the name of the pod submitted for creation, and an exec request names
that namespace, that pod name, and that name again as the container. -/
theorem C10_identity_kept (v : Vars) (env : Env) :
    (∀ ns name : String, ∀ b : Bool, Call.delete ns name b ∈ (main v env).calls →
      Call.create v.namespace_ (createdPod v env) ∈ (main v env).calls ∧
      ns = v.namespace_ ∧ name = (createdPod v env).ObjectMeta.Name) ∧
    (∀ ns name container : String, ∀ command : List String,
      Call.execRequest ns name container command ∈ (main v env).calls →
      Call.create v.namespace_ (createdPod v env) ∈ (main v env).calls ∧
      ns = v.namespace_ ∧ name = (createdPod v env).ObjectMeta.Name ∧
      container = (createdPod v env).ObjectMeta.Name) := by
  rcases main_calls_cases v env with hnone | ⟨hpre, hcreate, hwatch, hloop⟩
  · constructor
    · intro ns name b h
      have := (hnone _ h).1
      simp [Call.isDelete] at this
    · intro ns name container command h
      have := (hnone _ h).2
      simp [Call.isExec] at this
  · have hstop := waitLoop_calls_stop env.selects (createdPod v env)
    rw [main_of_returned v env hpre hcreate hwatch hloop]
    constructor
    · intro ns name b h
      refine ⟨by simp, ?_⟩
      cases env.executorOk <;> cases env.makeRawOk <;>
        simp at h <;> rcases h with h | h <;>
        first
          | exact absurd (hstop _ h) (by simp)
          | (simp [h.1, h.2.1, createdPod, podDescriptor])
    · intro ns name container command h
      refine ⟨by simp, ?_⟩
      cases env.executorOk <;> cases env.makeRawOk <;>
        simp at h <;> rcases h with h | h <;>
        first
          | exact absurd (hstop _ h) (by simp)
          | (simp [h.1, h.2.1, h.2.2.1, createdPod, podDescriptor])

/-- On the run envRenamed a Modified event overwrites the local variable pod
with a pod of another name and namespace, and the delete call and the exec
request still name the created pod. -/
theorem C10_identity_kept_witness :
    (waitLoop envRenamed.selects pod0).pod.ObjectMeta = ⟨"other-pod", "kube-system"⟩ ∧
    Call.delete "default" "hackctlu" false ∈ (main noFlags envRenamed).calls ∧
    Call.execRequest "default" "hackctlu" "hackctlu" ["/bin/bash"]
      ∈ (main noFlags envRenamed).calls ∧
    (Call.create "default" pod0 ∈ (main noFlags envRenamed).calls ∧
      "default" = noFlags.namespace_ ∧
      "hackctlu" = (createdPod noFlags envRenamed).ObjectMeta.Name) :=
  ⟨by decide, by decide, by decide,
    (C10_identity_kept noFlags envRenamed).1 "default" "hackctlu" false (by decide)⟩

end Hackctl
